import Mathlib

/-!
Shallow embedding of the leader-election core of `raft_consensus`
(`src/state_machine.rs`, `src/default_storage.rs`, `src/raft_thread.rs`).

Machine integers (`u64` term/log indices, millisecond instants and
durations) are modelled as `Nat`; overflow is irrelevant at the values the
protocol manipulates.  `Instant`/`Duration` are milliseconds.  The process
clock (`system_clock::now()`) is passed to each step as an explicit `now`
argument; the ChaCha8 RNG is modelled as a stream of draws; `Uuid::new_v4`
as a counter.  Fallible storage syncs consume a plan of outcomes.
-/

namespace RaftSpec

abbrev ServerId := Nat
abbrev TermIndex := Nat
abbrev LogIndex := Nat
abbrev Instant := Nat
abbrev Duration := Nat
abbrev Uuid := Nat

/-- Embedding of `TermIndex::increment` from `common.rs`. -/
def TermIndex.increment (t : TermIndex) : TermIndex := t + 1

/-- Embedding of `LogEntry` from `common.rs`. -/
structure LogEntry (C : Type) where
  index : LogIndex
  term : TermIndex
  command : C
deriving DecidableEq, Repr

/-- Embedding of `RaftConfig` from `common.rs`. -/
structure RaftConfig where
  leader_heartbeat_interval : Duration
  min_election_timeout_ms : Nat
  max_election_timeout_ms : Nat
deriving DecidableEq, Repr

/-- Embedding of `AppendEntries` request from `rpc_messages.rs`. -/
structure AppendEntries (C : Type) where
  request_id : Uuid
  «from» : ServerId
  «to» : ServerId
  term : TermIndex
  prev_log_term : TermIndex
  prev_log_index : LogIndex
  entries : List (LogEntry C)
  leader_commit : LogIndex
deriving DecidableEq, Repr

/-- Embedding of `RequestVote` request from `rpc_messages.rs`. -/
structure RequestVote where
  request_id : Uuid
  «from» : ServerId
  «to» : ServerId
  term : TermIndex
  last_log_index : LogIndex
  last_log_term : TermIndex
deriving DecidableEq, Repr

/-- Embedding of `AppendEntriesAck` reply from `rpc_messages.rs`. -/
structure AppendEntriesAck where
  request_id : Uuid
  «from» : ServerId
  «to» : ServerId
  term : TermIndex
  success : Bool
deriving DecidableEq, Repr

/-- Embedding of `Vote` reply from `rpc_messages.rs`. -/
structure Vote where
  request_id : Uuid
  «from» : ServerId
  «to» : ServerId
  term : TermIndex
  vote_granted : Bool
deriving DecidableEq, Repr

/-- Embedding of `Request` from `rpc_messages.rs`. -/
inductive Request (C : Type) where
  | AppendEntries (req : AppendEntries C)
  | RequestVote (req : RequestVote)
deriving DecidableEq, Repr

/-- Embedding of `ReplyTo` from `rpc_messages.rs`. -/
inductive ReplyTo where
  | AppendEntries (ack : AppendEntriesAck)
  | RequestVote (vote : Vote)
deriving DecidableEq, Repr

/-- Embedding of `RpcMessage` from `rpc_messages.rs`. -/
inductive RpcMessage (C : Type) where
  | Request (req : Request C)
  | Reply (reply : ReplyTo)
deriving DecidableEq, Repr

/-- Embedding of `Request::term`. -/
def Request.term : Request C → TermIndex
  | .AppendEntries ae => ae.term
  | .RequestVote rv => rv.term

/-- Embedding of `ReplyTo::term`. -/
def ReplyTo.term : ReplyTo → TermIndex
  | .AppendEntries ae => ae.term
  | .RequestVote rv => rv.term

/-- Embedding of `Request::to`. -/
def Request.«to» : Request C → ServerId
  | .AppendEntries ae => ae.«to»
  | .RequestVote rv => rv.«to»

/-- Embedding of `ReplyTo::to`. -/
def ReplyTo.«to» : ReplyTo → ServerId
  | .AppendEntries ae => ae.«to»
  | .RequestVote rv => rv.«to»

/-- Embedding of `RpcMessage::to`. -/
def RpcMessage.«to» : RpcMessage C → ServerId
  | .Request r => r.«to»
  | .Reply r => r.«to»

/-- Embedding of `PersistentStorageError` from `common.rs`. -/
inductive PersistentStorageError where
  | IoError
  | SerdeError
deriving DecidableEq, Repr

/-- The in-memory `Election` record of `default_storage.rs`: the current
term and the vote, scoped by the term in which it was cast. -/
structure Election where
  current_term : TermIndex
  voted_for : Option (TermIndex × ServerId)
deriving DecidableEq, Repr

/-- Embedding of `DefaultPersistentStorage` from `default_storage.rs`: the buffered
in-memory record (`election`), the durable on-disk record (what the last
successful `sync` wrote), and a plan of outcomes for successive `sync`
calls (`maybe!` fault injection); an exhausted plan means success. -/
structure Storage where
  election : Election
  disk : Election
  syncPlan : List Bool
deriving DecidableEq, Repr

/-- Embedding of `PersistentStorage::current_term` (reads the buffered record). -/
def Storage.current_term (s : Storage) : TermIndex := s.election.current_term

/-- Embedding of `DefaultPersistentStorage::voted_for_in_current_term`: the stored vote,
visible only when its term equals `current_term`. -/
def Storage.voted_for_in_current_term (s : Storage) : Option ServerId :=
  match s.election.voted_for with
  | some (last_vote_term, server_id) =>
    if last_vote_term = s.election.current_term then some server_id else none
  | none => none

/-- Embedding of `DefaultPersistentStorage::update_term` (in-memory only). -/
def Storage.update_term (s : Storage) (t : TermIndex) : Storage :=
  { s with election := { s.election with current_term := t } }

/-- Embedding of `DefaultPersistentStorage::record_vote` (binds the vote to the current
term; in-memory only). -/
def Storage.record_vote (s : Storage) (voted_for : ServerId) : Storage :=
  { s with election := { s.election with voted_for := some (s.current_term, voted_for) } }

/-- Embedding of `DefaultPersistentStorage::sync`: writes the buffered record to disk
and flushes; the next planned outcome decides success (an exhausted plan
succeeds).  On failure nothing becomes durable. -/
def Storage.sync (s : Storage) : Storage × Except PersistentStorageError Unit :=
  match s.syncPlan with
  | [] => ({ s with disk := s.election }, .ok ())
  | ok :: rest =>
    if ok then ({ s with disk := s.election, syncPlan := rest }, .ok ())
    else ({ s with syncPlan := rest }, .error .IoError)

/-- The ChaCha8 RNG, modelled as a stream of raw draws. -/
abbrev Rng := List Nat

/-- Embedding of `rng.gen_range(lo..hi)`: a draw in `[lo, hi)` consuming one stream
element (an exhausted stream yields `lo`). -/
def genRange (lo hi : Nat) (rng : Rng) : Nat × Rng :=
  match rng with
  | [] => (lo, [])
  | x :: rest => (lo + x % (hi - lo), rest)

/-- The mutable environment a step threads through: the node's persistent
storage, its RNG, and the source of fresh request UUIDs. -/
structure World where
  storage : Storage
  rng : Rng
  nextUuid : Uuid
deriving DecidableEq, Repr

/-- Embedding of `Event` from `state_machine.rs`. -/
inductive Event (C : Type) where
  | Tick (now : Instant)
  | LogEntryAppliedByApplication (idx : LogIndex)
  | IncomingRpc (msg : RpcMessage C)
deriving DecidableEq, Repr

/-- Embedding of `Action` from `state_machine.rs`. -/
inductive Action (C : Type) where
  | SetNextTimeout (d : Duration)
  | ApplyLogEntries (entries : List C)
  | OutgoingRpc (msg : RpcMessage C)
deriving DecidableEq, Repr

/-- How a step can abort: a propagated `PersistentStorageError`
(`Result::Err` in the source) or a `todo!`/`unreachable!` panic. -/
inductive StepErr where
  | storage (e : PersistentStorageError)
  | panicked
deriving DecidableEq, Repr

/-- The `Follower` role record from `state_machine.rs::state_defs`. -/
structure FollowerS where
  last_election_timer_started : Instant
  election_timeout : Duration
  leader_id : Option ServerId
deriving DecidableEq, Repr

/-- The `Candidate` role record from `state_machine.rs::state_defs`. -/
structure CandidateS where
  last_election_timer_started : Instant
  election_timeout : Duration
  votes_received : Finset ServerId
deriving DecidableEq

/-- The `Leader` role record from `state_machine.rs::state_defs`
(`next_index`/`match_index` are created empty and never touched in the
election-only core). -/
structure LeaderS where
  last_heartbeat_sent : Instant
  next_index : List (ServerId × LogIndex)
  match_index : List (ServerId × LogIndex)
deriving DecidableEq, Repr

/-- Embedding of `NodeState<S>` from `state_machine.rs`: fields common to all roles
plus the role-specific `inner`. -/
structure NodeState (S : Type) where
  server_id : ServerId
  start_time : Instant
  current_time : Instant
  other_servers : Finset ServerId
  commit_index : LogIndex
  last_applied : LogIndex
  inner : S
deriving DecidableEq

/-- Embedding of `Node` from `state_machine.rs`. -/
inductive Node where
  | Leader (state : NodeState LeaderS)
  | Follower (state : NodeState FollowerS)
  | Candidate (state : NodeState CandidateS)
deriving DecidableEq

/-- Embedding of `CanTransitionTo::transition_to`: convert the inner role record and
copy every common field. -/
def NodeState.transition (ns : NodeState S) (f : S → T) : NodeState T :=
  { server_id := ns.server_id
    start_time := ns.start_time
    current_time := ns.current_time
    other_servers := ns.other_servers
    commit_index := ns.commit_index
    last_applied := ns.last_applied
    inner := f ns.inner }

/-- Embedding of `impl From<Candidate> for Leader` (`now` stands for
`system_clock::now()`). -/
def candidateToLeader (now : Instant) (_ : CandidateS) : LeaderS :=
  { last_heartbeat_sent := now, next_index := [], match_index := [] }

/-- Embedding of `impl From<Follower> for Candidate`. -/
def followerToCandidate (now : Instant) (_ : FollowerS) : CandidateS :=
  { last_election_timer_started := now, election_timeout := 0, votes_received := ∅ }

/-- Embedding of `impl From<Leader> for Follower`. -/
def leaderToFollower (now : Instant) (_ : LeaderS) : FollowerS :=
  { last_election_timer_started := now, election_timeout := 0, leader_id := none }

/-- Embedding of `impl From<Candidate> for Follower` (keeps the election timeout). -/
def candidateToFollower (now : Instant) (c : CandidateS) : FollowerS :=
  { last_election_timer_started := now, election_timeout := c.election_timeout,
    leader_id := none }

/-- Embedding of `Follower::new`. -/
def FollowerS.new (now : Instant) : FollowerS :=
  { last_election_timer_started := now, election_timeout := 0, leader_id := none }

/-- Ordered insertion into an ascending list, used to give the
`HashSet<ServerId>` iterations of the source a concrete (ascending)
order. -/
def insertAsc (x : ServerId) : List ServerId → List ServerId
  | [] => [x]
  | y :: ys => if x ≤ y then x :: y :: ys else y :: insertAsc x ys

instance : LeftCommutative insertAsc := ⟨fun (a b : Nat) (l : List Nat) => by
  induction l with
  | nil =>
    simp only [insertAsc]
    rcases Nat.lt_trichotomy a b with h | h | h
    · rw [if_pos (Nat.le_of_lt h), if_neg (show ¬ b ≤ a by omega)]
    · subst h; rfl
    · rw [if_neg (show ¬ a ≤ b by omega), if_pos (Nat.le_of_lt h)]
  | cons c cs ih =>
    simp only [insertAsc]
    by_cases hbc : b ≤ c <;> by_cases hac : a ≤ c
    · rw [if_pos hbc, if_pos hac]
      simp only [insertAsc]
      rw [if_pos hac, if_pos hbc]
      rcases Nat.lt_trichotomy a b with h | h | h
      · rw [if_pos (Nat.le_of_lt h), if_neg (show ¬ b ≤ a by omega)]
      · subst h; rfl
      · rw [if_neg (show ¬ a ≤ b by omega), if_pos (Nat.le_of_lt h)]
    · rw [if_pos hbc, if_neg hac]
      simp only [insertAsc]
      rw [if_neg hac, if_pos hbc, if_neg (show ¬ a ≤ b by omega)]
    · rw [if_neg hbc, if_pos hac]
      simp only [insertAsc]
      rw [if_neg hbc, if_pos hac, if_neg (show ¬ b ≤ a by omega)]
    · rw [if_neg hbc, if_neg hac]
      simp only [insertAsc]
      rw [if_neg hac, if_neg hbc, ih]⟩

/-- The elements of a `Finset ServerId` listed in ascending order
(the deterministic stand-in for `HashSet` iteration). -/
def sortedServerIds (s : Finset ServerId) : List ServerId :=
  Multiset.foldr insertAsc [] s.val

/-- Embedding of `divrem::DivCeil::div_ceil` on naturals. -/
def divCeil (a b : Nat) : Nat := (a + b - 1) / b

/-- The quorum computed in `NodeState<Candidate>::handle_event`:
`div_ceil(other_servers.len() + 1, 2)`. -/
def qorum (otherServersCount : Nat) : Nat := divCeil (otherServersCount + 1) 2

/-- The `has_election_timer!` macro body for `NodeState<Follower>`:
draw a fresh timeout from `[min, max)`, store it together with
`last_election_timer_started := now`, and return it. -/
def resetElectionTimerF (config : RaftConfig) (now : Instant) (ns : NodeState FollowerS)
    (rng : Rng) : Duration × NodeState FollowerS × Rng :=
  let d := genRange config.min_election_timeout_ms config.max_election_timeout_ms rng
  (d.1,
    { ns with inner :=
      { ns.inner with
        election_timeout := d.1
        last_election_timer_started := now } },
    d.2)

/-- The `has_election_timer!` macro body for `NodeState<Candidate>`. -/
def resetElectionTimerC (config : RaftConfig) (now : Instant) (ns : NodeState CandidateS)
    (rng : Rng) : Duration × NodeState CandidateS × Rng :=
  let d := genRange config.min_election_timeout_ms config.max_election_timeout_ms rng
  (d.1,
    { ns with inner :=
      { ns.inner with
        election_timeout := d.1
        last_election_timer_started := now } },
    d.2)

/-- Embedding of `NodeState::<St>::ack_append_entries`. -/
def NodeState.ack_append_entries (ns : NodeState S) (storage : Storage)
    (append_entries_req : AppendEntries C) (success : Bool) : List (Action C) :=
  [.OutgoingRpc (.Reply (.AppendEntries
    { request_id := append_entries_req.request_id
      «from» := ns.server_id
      «to» := append_entries_req.«from»
      term := storage.current_term
      success := success }))]

/-- Embedding of `NodeState::<St>::vote_no`. -/
def NodeState.vote_no (ns : NodeState S) (storage : Storage)
    (vote_req : RequestVote) : List (Action C) :=
  [.OutgoingRpc (.Reply (.RequestVote
    { request_id := vote_req.request_id
      «from» := ns.server_id
      «to» := vote_req.«from»
      term := storage.current_term
      vote_granted := false }))]

/-- Embedding of `NodeState<Leader>::send_leader_heartbeat_to_cluster`: an empty
`AppendEntries` with a fresh request id per peer, update
`last_heartbeat_sent := current_time`, then `SetNextTimeout`.  The
`HashSet` iteration over peers is modelled in ascending id order. -/
def sendLeaderHeartbeatToCluster (config : RaftConfig) (ns : NodeState LeaderS)
    (storage : Storage) (uuid : Uuid) : NodeState LeaderS × List (Action C) × Uuid :=
  let peers := sortedServerIds ns.other_servers
  let heartbeats : List (Action C) :=
    (peers.zip (List.range peers.length)).map fun p =>
      .OutgoingRpc (.Request (.AppendEntries
        { request_id := uuid + p.2
          «from» := ns.server_id
          «to» := p.1
          term := storage.current_term
          prev_log_index := 0
          prev_log_term := 0
          entries := []
          leader_commit := ns.commit_index }))
  let ns' := { ns with inner := { ns.inner with last_heartbeat_sent := ns.current_time } }
  (ns', heartbeats ++ [.SetNextTimeout config.leader_heartbeat_interval], uuid + peers.length)

/-- Embedding of `NodeState<Candidate>::start_new_election`: bump the term, record a
self-vote, sync (an error aborts the step), reset the election timer,
reset `votes_received := {self}`, and emit `SetNextTimeout` followed by a
`RequestVote` to every peer (fresh request ids; peers in ascending id
order). -/
def startNewElection (config : RaftConfig) (now : Instant)
    (ns : NodeState CandidateS) (w : World) :
    NodeState CandidateS × World × Except StepErr (List (Action C)) :=
  let st := (w.storage.update_term w.storage.current_term.increment).record_vote ns.server_id
  match st.sync with
  | (st', .error e) => (ns, { w with storage := st' }, .error (.storage e))
  | (st', .ok _) =>
    let r := resetElectionTimerC config now ns w.rng
    let ns' := { r.2.1 with inner := { r.2.1.inner with
                  votes_received := insert r.2.1.server_id (∅ : Finset ServerId) } }
    let peers := sortedServerIds ns'.other_servers
    let vote_requests : List (Action C) :=
      (peers.zip (List.range peers.length)).map fun p =>
        .OutgoingRpc (.Request (.RequestVote
          { request_id := w.nextUuid + p.2
            «from» := ns'.server_id
            «to» := p.1
            term := st'.current_term
            last_log_index := 0
            last_log_term := 0 }))
    (ns', { storage := st', rng := r.2.2, nextUuid := w.nextUuid + peers.length },
      .ok (.SetNextTimeout r.1 :: vote_requests))

/-- Embedding of `NodeState<Follower>::vote_in_election`, embedded verbatim including
the computation of `voted_for_same_candidate_already` via
`.map(|_| true)`.  Clears `leader_id`; on grant, records the vote and
syncs before producing the reply; a sync failure aborts with the error. -/
def voteInElection (ns : NodeState FollowerS) (st : Storage) (vote_req : RequestVote) :
    NodeState FollowerS × Storage × Except StepErr (List (Action C)) :=
  let ns := { ns with inner := { ns.inner with leader_id := none } }
  let candidate_has_same_or_newer_term := decide (vote_req.term ≥ st.current_term)
  let have_we_voted_for_this_term := st.voted_for_in_current_term.isSome
  let voted_for_same_candidate_already :=
    (st.voted_for_in_current_term.map fun _ => true).getD false
  let vote_granted := candidate_has_same_or_newer_term &&
    (!have_we_voted_for_this_term || voted_for_same_candidate_already)
  if vote_granted then
    match (st.record_vote vote_req.«from»).sync with
    | (st', .error e) => (ns, st', .error (.storage e))
    | (st', .ok _) =>
      (ns, st', .ok [.OutgoingRpc (.Reply (.RequestVote
        { request_id := vote_req.request_id
          «from» := ns.server_id
          «to» := vote_req.«from»
          term := st'.current_term
          vote_granted := true }))])
  else
    (ns, st, .ok [.OutgoingRpc (.Reply (.RequestVote
      { request_id := vote_req.request_id
        «from» := ns.server_id
        «to» := vote_req.«from»
        term := st.current_term
        vote_granted := false }))])

/-- Embedding of `impl Transitions for NodeState<Leader>::handle_event`. -/
def leaderHandleEvent (config : RaftConfig) (ns : NodeState LeaderS)
    (event : Event C) (w : World) : World × Except StepErr (Node × List (Action C)) :=
  match event with
  | .Tick tnow =>
    if tnow > ns.inner.last_heartbeat_sent + config.leader_heartbeat_interval then
      let r := sendLeaderHeartbeatToCluster config ns w.storage w.nextUuid
      ({ w with nextUuid := r.2.2 }, .ok (.Leader r.1, r.2.1))
    else (w, .ok (.Leader ns, []))
  | .LogEntryAppliedByApplication _ => (w, .error .panicked)
  | .IncomingRpc (.Request (.RequestVote req)) =>
    (w, .ok (.Leader ns, ns.vote_no w.storage req))
  | .IncomingRpc (.Request (.AppendEntries req)) =>
    if req.term = w.storage.current_term then (w, .error .panicked)
    else if req.term < w.storage.current_term then
      (w, .ok (.Leader ns, ns.ack_append_entries w.storage req false))
    else (w, .error .panicked)
  | .IncomingRpc (.Reply _) => (w, .ok (.Leader ns, []))

/-- Embedding of `impl Transitions for NodeState<Candidate>::handle_event`. -/
def candidateHandleEvent (config : RaftConfig) (now : Instant) (ns : NodeState CandidateS)
    (event : Event C) (w : World) : World × Except StepErr (Node × List (Action C)) :=
  match event with
  | .Tick tnow =>
    if tnow > ns.inner.last_election_timer_started + ns.inner.election_timeout then
      let r := startNewElection config now ns w
      match r.2.2 with
      | .error e => (r.2.1, .error e)
      | .ok acts => (r.2.1, .ok (.Candidate r.1, acts))
    else (w, .ok (.Candidate ns, []))
  | .LogEntryAppliedByApplication _ => (w, .error .panicked)
  | .IncomingRpc (.Request (.RequestVote req)) =>
    (w, .ok (.Candidate ns, ns.vote_no w.storage req))
  | .IncomingRpc (.Request (.AppendEntries req)) =>
    if req.term < w.storage.current_term then
      (w, .ok (.Candidate ns, ns.ack_append_entries w.storage req false))
    else if req.term = w.storage.current_term then
      let fs := ns.transition (candidateToFollower now)
      let ack := fs.ack_append_entries w.storage req true
      let r := resetElectionTimerF config now fs w.rng
      ({ w with rng := r.2.2 }, .ok (.Follower r.2.1, ack))
    else (w, .error .panicked)
  | .IncomingRpc (.Reply (.RequestVote vote)) =>
    let q := qorum ns.other_servers.card
    if vote.term = w.storage.current_term ∧ vote.vote_granted then
      let votes := insert vote.«from» ns.inner.votes_received
      let ns' := { ns with inner := { ns.inner with votes_received := votes } }
      if votes.card ≥ q then
        let ls := ns'.transition (candidateToLeader now)
        let r := sendLeaderHeartbeatToCluster config ls w.storage w.nextUuid
        ({ w with nextUuid := r.2.2 }, .ok (.Leader r.1, r.2.1))
      else
        let ns'' := { ns' with inner := { ns'.inner with
                       votes_received := insert vote.«from» votes } }
        (w, .ok (.Candidate ns'', []))
    else (w, .ok (.Candidate ns, []))
  | .IncomingRpc (.Reply (.AppendEntries _)) => (w, .ok (.Candidate ns, []))

/-- Embedding of `impl Transitions for NodeState<Follower>::handle_event`. -/
def followerHandleEvent (config : RaftConfig) (now : Instant) (ns : NodeState FollowerS)
    (event : Event C) (w : World) : World × Except StepErr (Node × List (Action C)) :=
  match event with
  | .Tick tnow =>
    if tnow > ns.inner.last_election_timer_started + ns.inner.election_timeout then
      let cs := ns.transition (followerToCandidate now)
      let r := startNewElection config now cs w
      match r.2.2 with
      | .error e => (r.2.1, .error e)
      | .ok acts => (r.2.1, .ok (.Candidate r.1, acts))
    else (w, .ok (.Follower ns, []))
  | .LogEntryAppliedByApplication _ => (w, .error .panicked)
  | .IncomingRpc (.Request (.RequestVote req)) =>
    if req.term < w.storage.current_term then
      (w, .ok (.Follower ns, ns.vote_no w.storage req))
    else
      let ns' := { ns with inner := { ns.inner with leader_id := none } }
      let r := voteInElection ns' w.storage req
      match r.2.2 with
      | .error e => ({ w with storage := r.2.1 }, .error e)
      | .ok acts => ({ w with storage := r.2.1 }, .ok (.Follower r.1, acts))
  | .IncomingRpc (.Request (.AppendEntries req)) =>
    if req.term < w.storage.current_term then
      (w, .ok (.Follower ns, ns.ack_append_entries w.storage req false ++ []))
    else
      let ns' := { ns with inner := { ns.inner with leader_id := some req.«from» } }
      let r := resetElectionTimerF config now ns' w.rng
      let acts := r.2.1.ack_append_entries w.storage req true ++ [.SetNextTimeout r.1]
      ({ w with rng := r.2.2 }, .ok (.Follower r.2.1, acts))
  | .IncomingRpc (.Reply _) => (w, .ok (.Follower ns, []))

/-- The role-demoting match inside
`Node::if_rpc_message_has_higher_term_become_follower`. -/
def demoteToFollower (now : Instant) : Node → NodeState FollowerS
  | .Leader s => s.transition (leaderToFollower now)
  | .Follower s => s
  | .Candidate s => s.transition (candidateToFollower now)

/-- The `(should_become_follower, new_term)` pair computed at the top of
`Node::if_rpc_message_has_higher_term_become_follower`. -/
def eventTermInfo (st : Storage) : Event C → Bool × TermIndex
  | .IncomingRpc (.Request r) => (decide (r.term > st.current_term), r.term)
  | .IncomingRpc (.Reply r) => (decide (r.term > st.current_term), r.term)
  | _ => (false, st.current_term)

/-- Embedding of `Node::if_rpc_message_has_higher_term_become_follower`. -/
def ifRpcMessageHasHigherTermBecomeFollower (config : RaftConfig) (now : Instant)
    (n : Node) (event : Event C) (w : World) :
    World × Except StepErr (Node × List (Action C)) :=
  let sb := eventTermInfo w.storage event
  if sb.1 then
    match (w.storage.update_term sb.2).sync with
    | (st', .error e) => ({ w with storage := st' }, .error (.storage e))
    | (st', .ok _) =>
      let fs := demoteToFollower now n
      let fs' := { fs with inner := { fs.inner with leader_id := none } }
      let r := resetElectionTimerF config now fs' w.rng
      ({ w with storage := st', rng := r.2.2 },
        .ok (.Follower r.2.1, [.SetNextTimeout r.1]))
  else (w, .ok (n, []))

/-- Embedding of `Node::update_clock` (`current_time := system_clock::now()`). -/
def Node.update_clock (n : Node) (now : Instant) : Node :=
  match n with
  | .Leader s => .Leader { s with current_time := now }
  | .Follower s => .Follower { s with current_time := now }
  | .Candidate s => .Candidate { s with current_time := now }

/-- The role dispatch inside `Node::next`. -/
def handleEvent (config : RaftConfig) (now : Instant) (n : Node) (event : Event C)
    (w : World) : World × Except StepErr (Node × List (Action C)) :=
  match n with
  | .Leader s => leaderHandleEvent config s event w
  | .Follower s => followerHandleEvent config now s event w
  | .Candidate s => candidateHandleEvent config now s event w

/-- Embedding of `Node::next`: refresh the clock, run the universal higher-term
pre-processing, dispatch to the role handler, and append the
pre-processing's `SetNextTimeout` (if any) after the handler's actions. -/
def Node.next (config : RaftConfig) (now : Instant) (n : Node) (event : Event C)
    (w : World) : World × Except StepErr (Node × List (Action C)) :=
  let n' := n.update_clock now
  match ifRpcMessageHasHigherTermBecomeFollower config now n' event w with
  | (w', .error e) => (w', .error e)
  | (w', .ok (n'', maybe_tick_timer)) =>
    match handleEvent config now n'' event w' with
    | (w'', .error e) => (w'', .error e)
    | (w2, .ok (n3, actions)) => (w2, .ok (n3, actions ++ maybe_tick_timer))

/-- Embedding of `NodeState::<Follower>::new` as used by `Node::new`: a fresh Follower
with a first election timeout already drawn. -/
def followerNodeNew (config : RaftConfig) (now : Instant) (server_id : ServerId)
    (other_servers : Finset ServerId) (rng : Rng) :
    NodeState FollowerS × Duration × Rng :=
  let ns : NodeState FollowerS :=
    { server_id := server_id
      start_time := now
      current_time := now
      other_servers := other_servers
      commit_index := 0
      last_applied := 0
      inner := FollowerS.new now }
  let r := resetElectionTimerF config now ns rng
  (r.2.1, r.1, r.2.2)

/-!  A whole-cluster step relation built from `Node.next`, mirroring the
simulator harness: one per-node state machine per server, all produced
messages accumulated in a pool.  Delivering never removes a message from
the pool, so arbitrary message loss (never delivering) and duplication
(delivering the same index twice) are expressible schedules. -/

/-- One simulated server: its role state machine plus its private
storage/RNG/uuid environment. -/
structure NodeBundle where
  node : Node
  world : World
deriving DecidableEq

/-- A cluster configuration: the per-server bundles and the pool of every
message any node has sent so far. -/
structure ClusterState (C : Type) where
  nodes : List (ServerId × NodeBundle)
  sent : List (RpcMessage C)
deriving DecidableEq

/-- A schedule entry: tick one server's clock, or deliver the `msgIdx`-th
message ever sent to its addressee. -/
inductive ClusterEvent where
  | tick (sid : ServerId) (now : Instant)
  | deliver (msgIdx : Nat) (now : Instant)
deriving DecidableEq, Repr

/-- The messages contained in a step's actions (what the event loop
forwards to the transport). -/
def outgoingMessages (actions : List (Action C)) : List (RpcMessage C) :=
  actions.filterMap fun a =>
    match a with
    | .OutgoingRpc m => some m
    | _ => none

/-- Run `Node.next` for one server of the cluster and pool its outgoing
messages.  A storage error kills the node's thread (the event loop exits),
so the server is removed from the cluster. -/
def stepNodeInCluster (config : RaftConfig) (cs : ClusterState C) (sid : ServerId)
    (event : Event C) (now : Instant) : ClusterState C :=
  match cs.nodes.lookup sid with
  | none => cs
  | some nb =>
    match Node.next config now nb.node event nb.world with
    | (_, .error _) => { cs with nodes := cs.nodes.filter fun p => p.1 ≠ sid }
    | (w', .ok (n', actions)) =>
      { nodes := cs.nodes.map fun p => if p.1 = sid then (sid, ⟨n', w'⟩) else p
        sent := cs.sent ++ outgoingMessages actions }

/-- Apply one schedule entry to the cluster. -/
def clusterStep (config : RaftConfig) (cs : ClusterState C) (ev : ClusterEvent) :
    ClusterState C :=
  match ev with
  | .tick sid now => stepNodeInCluster config cs sid (.Tick now) now
  | .deliver i now =>
    match cs.sent.get? i with
    | none => cs
    | some msg => stepNodeInCluster config cs msg.«to» (.IncomingRpc msg) now

/-- Fold a schedule over the cluster. -/
def clusterRun (config : RaftConfig) (cs : ClusterState C) (evs : List ClusterEvent) :
    ClusterState C :=
  evs.foldl (clusterStep config) cs

/-- The servers that report themselves Leader with `current_term = t`,
exactly what `InvariantChecker::assert_at_most_one_leader_in_term`
counts per term from the published `(role, current_term)` observations. -/
def leadersInTerm (cs : ClusterState C) (t : TermIndex) : List ServerId :=
  cs.nodes.filterMap fun p =>
    match p.2.node with
    | .Leader _ => if p.2.world.storage.current_term = t then some p.1 else none
    | _ => none

/-- The `Election Safety` invariant as asserted by the simulator's invariant checker:
at most one self-reported leader per term. -/
def electionSafetyAt (cs : ClusterState C) (t : TermIndex) : Prop :=
  (leadersInTerm cs t).length ≤ 1

/-- A fresh storage in the boot state written by
`DefaultPersistentStorage::open_election_file` (term 0, no vote), with
every sync succeeding. -/
def freshStorage : Storage :=
  { election := { current_term := 0, voted_for := none }
    disk := { current_term := 0, voted_for := none }
    syncPlan := [] }

/-- A freshly started server (`Node::new` at clock 0) with the given RNG
stream and uuid seed. -/
def bootBundle (config : RaftConfig) (sid : ServerId) (others : Finset ServerId)
    (rng : Rng) (uuidSeed : Uuid) : NodeBundle :=
  let r := followerNodeNew config 0 sid others rng
  { node := .Follower r.1
    world := { storage := freshStorage, rng := r.2.2, nextUuid := uuidSeed } }

/-- The configuration the repository's tests run with. -/
def testConfig : RaftConfig :=
  { leader_heartbeat_interval := 100
    min_election_timeout_ms := 150
    max_election_timeout_ms := 300 }

/-- A three-server cluster `{1, 2, 3}`, all booted as Followers in term 0.
RNG streams give server 1 a 150 ms first timeout, server 2 160 ms and
server 3 200 ms. -/
def cluster3 : ClusterState Unit :=
  { nodes :=
      [ (1, bootBundle testConfig 1 {2, 3} [0] 100)
      , (2, bootBundle testConfig 2 {1, 3} [10] 200)
      , (3, bootBundle testConfig 3 {1, 2} [50] 300) ]
    sent := [] }

/-- A schedule on `cluster3`: servers 1 and 2 time out and both become
candidates for term 1; server 3 receives both vote requests and (per the
code) grants both; each candidate then receives server 3's granted vote. -/
def twoLeadersSchedule : List ClusterEvent :=
  [ .tick 1 151, .tick 2 161, .deliver 1 162, .deliver 3 163
  , .deliver 4 164, .deliver 5 165 ]

/-! Projections on a step's result, for readable statements. -/

/-- Whether a node is in the Leader role. -/
def Node.isLeader : Node → Bool
  | .Leader _ => true
  | _ => false

/-- Whether a node is in the Candidate role. -/
def Node.isCandidate : Node → Bool
  | .Candidate _ => true
  | _ => false

/-- Whether a node is in the Follower role. -/
def Node.isFollower : Node → Bool
  | .Follower _ => true
  | _ => false

/-- The node a successful step results in. -/
def stepResultNode (r : World × Except StepErr (Node × List (Action C))) : Option Node :=
  match r.2 with
  | .ok p => some p.1
  | .error _ => none

/-- The actions a successful step produced. -/
def stepResultActions (r : World × Except StepErr (Node × List (Action C))) :
    Option (List (Action C)) :=
  match r.2 with
  | .ok p => some p.2
  | .error _ => none

/-- The `vote_granted` flags of the `Vote` replies among some actions. -/
def voteGrantsIn (acts : List (Action C)) : List Bool :=
  acts.filterMap fun a =>
    match a with
    | .OutgoingRpc (.Reply (.RequestVote v)) => some v.vote_granted
    | _ => none

/-- The durations of the `SetNextTimeout` actions among some actions. -/
def setTimeoutsIn (acts : List (Action C)) : List Duration :=
  acts.filterMap fun a =>
    match a with
    | .SetNextTimeout d => some d
    | _ => none

/-- The addressees of `AppendEntries` requests among some actions (the
heartbeat fan-out). -/
def heartbeatRecipientsIn (acts : List (Action C)) : List ServerId :=
  acts.filterMap fun a =>
    match a with
    | .OutgoingRpc (.Request (.AppendEntries ae)) => some ae.«to»
    | _ => none

/-- The `leader_id` a resulting node reports (a Follower's
`inner.leader_id`), as published to the observability sink. -/
def Node.reportedLeaderId : Node → Option ServerId
  | .Follower s => s.inner.leader_id
  | _ => none

/-- The `last_election_timer_started` of a resulting Follower. -/
def Node.followerTimerStart : Node → Option Instant
  | .Follower s => some s.inner.last_election_timer_started
  | _ => none

/-! Concrete fixtures. -/

/-- A Follower, server 1 of cluster `{1,2,3}`, whose storage already holds
a vote for server 2 in the current term 1. -/
def c1Follower : NodeState FollowerS :=
  { server_id := 1, start_time := 0, current_time := 0, other_servers := {2, 3}
    commit_index := 0, last_applied := 0
    inner := { last_election_timer_started := 0, election_timeout := 150, leader_id := none } }

/-- Storage in term 1 with a persisted, synced vote for server 2 in term 1. -/
def c1Storage : Storage :=
  { election := { current_term := 1, voted_for := some (1, 2) }
    disk := { current_term := 1, voted_for := some (1, 2) }
    syncPlan := [] }

/-- A `RequestVote` from candidate 3 with term 1 (equal to the current
term of `c1Storage`). -/
def c1Request : RequestVote :=
  { request_id := 7, «from» := 3, «to» := 1, term := 1, last_log_index := 0, last_log_term := 0 }

/-- One full step of server 1 on the conflicting vote request. -/
def c1Step : World × Except StepErr (Node × List (Action Unit)) :=
  Node.next testConfig 5 (.Follower c1Follower)
    (.IncomingRpc (.Request (.RequestVote c1Request)))
    { storage := c1Storage, rng := [], nextUuid := 0 }

/-- A Candidate, server 1, in term 1 with a self-vote, election timer
started at 100 with timeout 180. -/
def c3Candidate : NodeState CandidateS :=
  { server_id := 1, start_time := 0, current_time := 0, other_servers := {2, 9}
    commit_index := 0, last_applied := 0
    inner := { last_election_timer_started := 100, election_timeout := 180, votes_received := {1} } }

/-- Storage of the candidate: term 1 with its synced self-vote. -/
def c3Storage : Storage :=
  { election := { current_term := 1, voted_for := some (1, 1) }
    disk := { current_term := 1, voted_for := some (1, 1) }
    syncPlan := [] }

/-- An `AppendEntries` heartbeat from server 9, the leader elected for the
same term 1. -/
def c3Req : AppendEntries Unit :=
  { request_id := 55, «from» := 9, «to» := 1, term := 1, prev_log_term := 0
    prev_log_index := 0, entries := [], leader_commit := 0 }

/-- One full step of the candidate on the same-term heartbeat. -/
def c3Step : World × Except StepErr (Node × List (Action Unit)) :=
  Node.next testConfig 400 (.Candidate c3Candidate)
    (.IncomingRpc (.Request (.AppendEntries c3Req)))
    { storage := c3Storage, rng := [20], nextUuid := 0 }

/-- A Follower with an empty peer set whose election timer (150 ms,
started at 0) has expired at time 151. -/
def c4Follower : NodeState FollowerS :=
  { server_id := 1, start_time := 0, current_time := 0, other_servers := ∅
    commit_index := 0, last_applied := 0
    inner := { last_election_timer_started := 0, election_timeout := 150, leader_id := none } }

/-- The single-server node's step on the expired election timer. -/
def c4Step : World × Except StepErr (Node × List (Action Unit)) :=
  Node.next testConfig 151 (.Follower c4Follower) (.Tick 151)
    { storage := freshStorage, rng := [5], nextUuid := 0 }

/-- A Candidate, server 1 of the four-server cluster `{1,2,3,4}`, in term
1 holding only its self-vote. -/
def c5Candidate : NodeState CandidateS :=
  { server_id := 1, start_time := 0, current_time := 0, other_servers := {2, 3, 4}
    commit_index := 0, last_applied := 0
    inner := { last_election_timer_started := 0, election_timeout := 200, votes_received := {1} } }

/-- Storage of the four-cluster candidate: term 1, synced self-vote. -/
def c5Storage : Storage :=
  { election := { current_term := 1, voted_for := some (1, 1) }
    disk := { current_term := 1, voted_for := some (1, 1) }
    syncPlan := [] }

/-- A granted vote from server 2 in term 1. -/
def c5Vote : Vote :=
  { request_id := 9, «from» := 2, «to» := 1, term := 1, vote_granted := true }

/-- The candidate's step on the granted vote: its second vote of four
servers. -/
def c5Step : World × Except StepErr (Node × List (Action Unit)) :=
  Node.next testConfig 50 (.Candidate c5Candidate)
    (.IncomingRpc (.Reply (.RequestVote c5Vote)))
    { storage := c5Storage, rng := [], nextUuid := 40 }

/-- A Follower in term 0 whose election timer was started at 40 and that
currently believes server 2 is leader. -/
def c10Follower : NodeState FollowerS :=
  { server_id := 1, start_time := 0, current_time := 0, other_servers := {2}
    commit_index := 0, last_applied := 0
    inner := { last_election_timer_started := 40, election_timeout := 150, leader_id := some 2 } }

/-- A `RequestVote` from server 2 with term 1, strictly above the
follower's current term 0. -/
def c10Request : RequestVote :=
  { request_id := 3, «from» := 2, «to» := 1, term := 1, last_log_index := 0, last_log_term := 0 }

/-- The follower's step on the higher-term vote request. -/
def c10Step : World × Except StepErr (Node × List (Action Unit)) :=
  Node.next testConfig 999 (.Follower c10Follower)
    (.IncomingRpc (.Request (.RequestVote c10Request)))
    { storage := freshStorage, rng := [30], nextUuid := 0 }

/-- What `transport.wait_for_next_incoming_message` handed the event
loop: a message, a plain timeout (`Ok(None)`), or a shutdown
(`Err(TransportShutdown)`). -/
inductive TransportRead (C : Type) where
  | message (msg : RpcMessage C)
  | timeout
  | shutdown
deriving DecidableEq

/-- The fate of one event-loop iteration: the thread exits, or it keeps
running with the new node state, the new environment, and the messages it
forwarded to the transport. -/
inductive LoopOutcome (C : Type) where
  | stop
  | keepRunning (n : Node) (w : World) (outbox : List (RpcMessage C))
deriving DecidableEq

/-- One iteration of the loop body of `start_raft_in_new_thread`
(`raft_thread.rs`): a Tick step always runs first; a storage error from
it exits the thread, as does a transport shutdown; then the incoming
message (if any) is processed, and a storage error from that step exits
the thread before any action is drained; otherwise the actions of both
steps are drained to the transport in order. -/
def loopIteration (config : RaftConfig) (now : Instant) (n : Node) (w : World)
    (incoming : TransportRead C) : LoopOutcome C :=
  match Node.next config now n (.Tick now) w with
  | (_, .error _) => .stop
  | (w1, .ok (n1, tickActions)) =>
    match incoming with
    | .shutdown => .stop
    | .timeout => .keepRunning n1 w1 (outgoingMessages tickActions)
    | .message msg =>
      match Node.next config now n1 (.IncomingRpc msg) w1 with
      | (_, .error _) => .stop
      | (w2, .ok (n2, msgActions)) =>
        .keepRunning n2 w2 (outgoingMessages (tickActions ++ msgActions))

/-! Claim theorems. -/

/-- A Tick that has not passed the Follower's election deadline leaves
the node (clock apart), the storage, the RNG and the uuid source
untouched and produces no action. -/
theorem followerTickNoFire (C : Type) (config : RaftConfig) (now tnow : Instant)
    (f : NodeState FollowerS) (w : World)
    (h : ¬ tnow > f.inner.last_election_timer_started + f.inner.election_timeout) :
    Node.next config now (.Follower f) (Event.Tick tnow : Event C) w =
      (w, .ok (.Follower { f with current_time := now }, [])) := by
  simp [Node.next, ifRpcMessageHasHigherTermBecomeFollower, eventTermInfo, Node.update_clock,
    handleEvent, followerHandleEvent, h]

/-- With a same-or-newer request term the embedded `vote_in_election`
grant condition is always true (the `.map(|_| true)` computation makes
the two vote-history flags cancel). -/
theorem vote_granted_whenever_term_ok (s : Storage) (req : RequestVote)
    (h : s.current_term ≤ req.term) :
    (decide (req.term ≥ s.current_term) &&
      (!s.voted_for_in_current_term.isSome ||
        (s.voted_for_in_current_term.map fun _ => true).getD false)) = true := by
  cases hv : s.voted_for_in_current_term <;> simp [ge_iff_le, h, hv]

/-- Claim C1.  The claim states that a Follower answers a same-term
`RequestVote` from a candidate different from the one it already voted for
with `vote_granted = false`.  The code does the opposite: `c1Storage`
records a synced vote for server 2 in the current term 1, the request
comes from server 3 with term 1, and the step replies
`vote_granted = true` — and even overwrites the persisted vote with
server 3 (`vote_in_election` computes `voted_for_same_candidate_already`
as `.map(|_| true)`, never comparing the candidate id, contradicting the
Raft rule quoted in the comment directly above it). -/
theorem C1_conflicting_same_term_vote_is_granted :
    c1Storage.voted_for_in_current_term = some 2 ∧
    c1Request.«from» = 3 ∧ c1Request.term = c1Storage.current_term ∧
    (stepResultActions c1Step).map voteGrantsIn = some [true] ∧
    c1Step.1.storage.election.voted_for = some (1, 3) :=
  ⟨rfl, rfl, rfl, rfl, rfl⟩

/-- Claim C2.  Election Safety fails on the code: starting from three
Followers in term 0 and running the recorded schedule (a legal one — every
delivered message is drawn from the pool of previously sent messages),
servers 1 and 2 both end up in the Leader role with stored
`current_term = 1`, so the set of self-reported leaders for term 1 has two
elements and the invariant asserted by
`InvariantChecker::assert_at_most_one_leader_in_term` is violated. -/
theorem C2_two_leaders_reachable_in_same_term :
    leadersInTerm (clusterRun testConfig cluster3 twoLeadersSchedule) 1 = [1, 2] ∧
    ¬ electionSafetyAt (clusterRun testConfig cluster3 twoLeadersSchedule) 1 :=
  ⟨rfl, by unfold electionSafetyAt; decide⟩

/-- Claim C3, counterexample.  The claim states the step records
`leader_id := req.from`; in the code, `impl From<Candidate> for Follower`
sets `leader_id: None` and the handler never assigns the sender: on a
same-term `AppendEntries` from server 9 the resulting Follower reports no
leader at all. -/
theorem C3_counterexample_leader_id_is_cleared_not_recorded :
    (stepResultNode c3Step).map Node.isFollower = some true ∧
    (stepResultNode c3Step).map Node.reportedLeaderId = some none ∧
    c3Req.«from» = 9 ∧
    (stepResultNode c3Step).map Node.reportedLeaderId ≠ some (some c3Req.«from») :=
  ⟨rfl, rfl, rfl, by decide⟩

/-- Claim C4, counterexample.  The claim states that with an empty peer
set the step that starts the election already yields a Leader.  In the
code `start_new_election` never checks the quorum — only a later
`Vote` reply event does — so the step yields a Candidate, not a Leader,
even though its single self-vote already meets the quorum of 1. -/
theorem C4_counterexample_election_start_yields_candidate_not_leader :
    c4Follower.other_servers = ∅ ∧
    (stepResultNode c4Step).map Node.isLeader = some false ∧
    (stepResultNode c4Step).map Node.isCandidate = some true :=
  ⟨rfl, rfl, rfl⟩

/-- Claim C5, counterexample.  The quorum the code computes is
`div_ceil(|other_servers| + 1, 2)`, which the claim asserts to be a strict
majority of the full cluster for every cluster size.  For the four-server
cluster `{1,2,3,4}` the threshold is 2, and the candidate becomes Leader
at 2 votes of 4 — exactly half, not a strict majority. -/
theorem C5_counterexample_threshold_not_strict_majority_for_even_clusters :
    qorum c5Candidate.other_servers.card = 2 ∧
    (stepResultNode c5Step).map Node.isLeader = some true ∧
    ¬ 2 * qorum c5Candidate.other_servers.card > c5Candidate.other_servers.card + 1 :=
  ⟨rfl, rfl, by decide⟩

/-- Claim C10, counterexample.  For a `RequestVote` with term strictly
greater than the Follower's current term (1 > 0 here), the step *does*
reset the election timer fields (started 40 ↦ 999, timeout 150 ↦ 180) and
*does* emit a `SetNextTimeout`, because the universal higher-term
pre-processing runs first — contradicting the claim's "never resets the
election timer fields nor emits a SetNextTimeout" for term ≥ current. -/
theorem C10_counterexample_higher_term_request_resets_timer :
    c10Request.term > freshStorage.current_term ∧
    c10Follower.inner.last_election_timer_started = 40 ∧
    (stepResultNode c10Step).bind Node.followerTimerStart = some 999 ∧
    (stepResultActions c10Step).map setTimeoutsIn = some [180] :=
  ⟨by decide, rfl, rfl, rfl⟩

/-- Claim C3, amended.  For every Candidate node that processes an
`AppendEntries` request whose term equals its current term, the step
transitions the node to Follower, sets `leader_id := None` (the sender is
*not* recorded; it is only learned from a later heartbeat handled in the
Follower role), resets the election timer with a fresh random timeout,
and replies `AppendEntriesAck{success=true}` carrying the request's id. -/
theorem C3_amended_same_term_append_entries_demotes_candidate
    (config : RaftConfig) (now : Instant) (ns : NodeState CandidateS)
    (req : AppendEntries C) (w : World)
    (h : req.term = w.storage.current_term) :
    Node.next config now (.Candidate ns) (.IncomingRpc (.Request (.AppendEntries req))) w =
      ({ w with rng := (genRange config.min_election_timeout_ms config.max_election_timeout_ms w.rng).2 },
        .ok (.Follower
          { server_id := ns.server_id
            start_time := ns.start_time
            current_time := now
            other_servers := ns.other_servers
            commit_index := ns.commit_index
            last_applied := ns.last_applied
            inner :=
              { last_election_timer_started := now
                election_timeout :=
                  (genRange config.min_election_timeout_ms config.max_election_timeout_ms w.rng).1
                leader_id := none } },
          [.OutgoingRpc (.Reply (.AppendEntries
            { request_id := req.request_id
              «from» := ns.server_id
              «to» := req.«from»
              term := w.storage.current_term
              success := true }))])) := by
  simp [Node.next, ifRpcMessageHasHigherTermBecomeFollower, eventTermInfo,
    Node.update_clock, handleEvent, candidateHandleEvent, h, NodeState.transition,
    candidateToFollower, NodeState.ack_append_entries, resetElectionTimerF,
    Request.term, lt_self_iff_false]

/-- Witness for C3's amended theorem at the concrete fixture. -/
theorem C3_amended_witness :
    c3Req.term = c3Storage.current_term ∧
    Node.next testConfig 400 (.Candidate c3Candidate)
        (.IncomingRpc (.Request (.AppendEntries c3Req)))
        { storage := c3Storage, rng := [20], nextUuid := 0 } =
      ({ storage := c3Storage, rng := [], nextUuid := 0 },
        .ok (.Follower
          { server_id := 1, start_time := 0, current_time := 400, other_servers := {2, 9}
            commit_index := 0, last_applied := 0
            inner := { last_election_timer_started := 400, election_timeout := 170
                       leader_id := none } },
          [.OutgoingRpc (.Reply (.AppendEntries
            { request_id := 55, «from» := 1, «to» := 9, term := 1, success := true }))])) := by
  refine ⟨rfl, ?_⟩
  have h := C3_amended_same_term_append_entries_demotes_candidate testConfig 400 c3Candidate
    c3Req { storage := c3Storage, rng := [20], nextUuid := 0 } rfl
  rw [h]
  rfl

/-- Claim C4, amended.  For every node with an empty set of other servers,
an expired election timer makes the step transition Follower → Candidate
and run `start_new_election`: the term is bumped and a self-vote recorded
and synced, `votes_received = {self}` already meets the quorum of 1 — but
the step yields a Candidate, not a Leader: the quorum is only checked when
a later granted `Vote` reply arrives, which never happens with no peers. -/
theorem C4_amended_empty_peer_election_start (C : Type)
    (config : RaftConfig) (now tnow : Instant) (f : NodeState FollowerS) (w : World)
    (hempty : f.other_servers = ∅)
    (hfire : tnow > f.inner.last_election_timer_started + f.inner.election_timeout)
    (hsync : w.storage.syncPlan = []) :
    Node.next config now (.Follower f) (Event.Tick tnow : Event C) w =
      ({ storage :=
          { election := { current_term := w.storage.current_term + 1
                          voted_for := some (w.storage.current_term + 1, f.server_id) }
            disk := { current_term := w.storage.current_term + 1
                      voted_for := some (w.storage.current_term + 1, f.server_id) }
            syncPlan := [] }
         rng := (genRange config.min_election_timeout_ms config.max_election_timeout_ms w.rng).2
         nextUuid := w.nextUuid },
        .ok (.Candidate
          { server_id := f.server_id, start_time := f.start_time, current_time := now
            other_servers := f.other_servers, commit_index := f.commit_index
            last_applied := f.last_applied
            inner := { last_election_timer_started := now
                       election_timeout :=
                         (genRange config.min_election_timeout_ms config.max_election_timeout_ms w.rng).1
                       votes_received := {f.server_id} } },
          [.SetNextTimeout
            (genRange config.min_election_timeout_ms config.max_election_timeout_ms w.rng).1])) ∧
    qorum f.other_servers.card ≤ ({f.server_id} : Finset ServerId).card := by
  constructor
  · simp [Node.next, ifRpcMessageHasHigherTermBecomeFollower, eventTermInfo,
      Node.update_clock, handleEvent, followerHandleEvent, hfire, NodeState.transition,
      followerToCandidate, startNewElection, Storage.update_term, Storage.record_vote,
      Storage.current_term, TermIndex.increment, Storage.sync, hsync, hempty,
      resetElectionTimerC, sortedServerIds]
  · rw [hempty]
    simp [qorum, divCeil]

/-- Witness for C4's amended theorem at the concrete fixture. -/
theorem C4_amended_witness :
    c4Follower.other_servers = ∅ ∧ (151 : Nat) > 0 + 150 ∧ freshStorage.syncPlan = [] ∧
    Node.next testConfig 151 (.Follower c4Follower) (Event.Tick 151 : Event Unit)
        { storage := freshStorage, rng := [5], nextUuid := 0 } =
      ({ storage :=
          { election := { current_term := 1, voted_for := some (1, 1) }
            disk := { current_term := 1, voted_for := some (1, 1) }
            syncPlan := [] }
         rng := [], nextUuid := 0 },
        .ok (.Candidate
          { server_id := 1, start_time := 0, current_time := 151, other_servers := ∅
            commit_index := 0, last_applied := 0
            inner := { last_election_timer_started := 151, election_timeout := 155
                       votes_received := {1} } },
          [.SetNextTimeout 155])) := by
  refine ⟨rfl, by decide, rfl, ?_⟩
  have h := (C4_amended_empty_peer_election_start Unit testConfig 151 151 c4Follower
    { storage := freshStorage, rng := [5], nextUuid := 0 } rfl (by decide) rfl).1
  rw [h]
  rfl

/-- The cluster-wide heartbeat of `send_leader_heartbeat_to_cluster`
addresses exactly the peer set and schedules the leader heartbeat
interval. -/
theorem heartbeat_batch_projections (C : Type) (sid : ServerId) (tm ci u : Nat)
    (l1 : List ServerId) (l2 : List Nat) :
    heartbeatRecipientsIn
      ((l1.zip l2).map fun p => (Action.OutgoingRpc (RpcMessage.Request (Request.AppendEntries
        { request_id := u + p.2, «from» := sid, «to» := p.1, term := tm, prev_log_term := 0
          prev_log_index := 0, entries := [], leader_commit := ci })) : Action C)) =
      (l1.zip l2).map Prod.fst ∧
    setTimeoutsIn
      ((l1.zip l2).map fun p => (Action.OutgoingRpc (RpcMessage.Request (Request.AppendEntries
        { request_id := u + p.2, «from» := sid, «to» := p.1, term := tm, prev_log_term := 0
          prev_log_index := 0, entries := [], leader_commit := ci })) : Action C)) = [] := by
  induction l1 generalizing l2 with
  | nil => exact ⟨rfl, rfl⟩
  | cons x xs ih =>
    cases l2 with
    | nil => exact ⟨rfl, rfl⟩
    | cons y ys =>
      refine ⟨?_, ?_⟩
      · simp only [List.zip_cons_cons, List.map_cons, heartbeatRecipientsIn,
          List.filterMap_cons]
        exact congrArg (x :: ·) (ih ys).1
      · simp only [List.zip_cons_cons, List.map_cons, setTimeoutsIn, List.filterMap_cons]
        exact (ih ys).2

/-- The cluster-wide heartbeat of `send_leader_heartbeat_to_cluster`
addresses exactly the peer set and schedules the leader heartbeat
interval. -/
theorem sendHeartbeat_actions_spec (C : Type) (config : RaftConfig) (ns : NodeState LeaderS)
    (st : Storage) (u : Uuid) :
    heartbeatRecipientsIn (@sendLeaderHeartbeatToCluster C config ns st u).2.1 =
      sortedServerIds ns.other_servers ∧
    setTimeoutsIn (@sendLeaderHeartbeatToCluster C config ns st u).2.1 =
      [config.leader_heartbeat_interval] := by
  have hb := heartbeat_batch_projections C ns.server_id st.current_term ns.commit_index u
    (sortedServerIds ns.other_servers) (List.range (sortedServerIds ns.other_servers).length)
  have hfst : ((sortedServerIds ns.other_servers).zip
      (List.range (sortedServerIds ns.other_servers).length)).map Prod.fst =
      sortedServerIds ns.other_servers :=
    List.map_fst_zip _ _ (by simp)
  unfold sendLeaderHeartbeatToCluster
  constructor
  · simp only [heartbeatRecipientsIn, List.filterMap_append] at hb ⊢
    rw [hb.1, hfst]
    simp [List.filterMap_cons]
  · simp only [setTimeoutsIn, List.filterMap_append] at hb ⊢
    rw [hb.2]
    simp [List.filterMap_cons]

/-- Claim C5, amended.  After counting a granted same-term `Vote`, a
Candidate becomes Leader exactly when
`|insert v.from votes_received| ≥ div_ceil(|other_servers| + 1, 2)`; on
crossing that threshold it immediately emits a heartbeat to every peer
and schedules the heartbeat interval.  The threshold is a strict majority
of the full cluster only when the cluster size `|other_servers| + 1` is
odd (even peer count); for even cluster sizes it is exactly half. -/
theorem C5_amended_leader_exactly_at_code_quorum (C : Type)
    (config : RaftConfig) (now : Instant) (ns : NodeState CandidateS) (v : Vote) (w : World)
    (hterm : v.term = w.storage.current_term) (hgrant : v.vote_granted = true) :
    ((stepResultNode (Node.next config now (.Candidate ns)
        (Event.IncomingRpc (.Reply (.RequestVote v)) : Event C) w)).map Node.isLeader =
      some (decide (qorum ns.other_servers.card ≤
        (insert v.«from» ns.inner.votes_received).card))) ∧
    (qorum ns.other_servers.card ≤ (insert v.«from» ns.inner.votes_received).card →
      (stepResultActions (Node.next config now (.Candidate ns)
          (Event.IncomingRpc (.Reply (.RequestVote v)) : Event C) w)).map heartbeatRecipientsIn =
        some (sortedServerIds ns.other_servers) ∧
      (stepResultActions (Node.next config now (.Candidate ns)
          (Event.IncomingRpc (.Reply (.RequestVote v)) : Event C) w)).map setTimeoutsIn =
        some [config.leader_heartbeat_interval]) ∧
    (∀ n : Nat, 2 * qorum n > n + 1 ↔ n % 2 = 0) := by
  have harith : ∀ n : Nat, 2 * qorum n > n + 1 ↔ n % 2 = 0 := by
    intro n
    unfold qorum divCeil
    omega
  by_cases hq : qorum ns.other_servers.card ≤ (insert v.«from» ns.inner.votes_received).card
  · refine ⟨?_, fun _ => ?_, harith⟩
    · simp [Node.next, ifRpcMessageHasHigherTermBecomeFollower, eventTermInfo,
        Node.update_clock, handleEvent, candidateHandleEvent, hterm, hgrant,
        ReplyTo.term, lt_self_iff_false, stepResultNode, NodeState.transition,
        candidateToLeader, hq, Node.isLeader, ge_iff_le]
    · have hspec := sendHeartbeat_actions_spec C config
        ((({ ns with inner := { ns.inner with
            votes_received := insert v.«from» ns.inner.votes_received } } :
          NodeState CandidateS).transition (candidateToLeader now))) w.storage w.nextUuid
      simp [Node.next, ifRpcMessageHasHigherTermBecomeFollower, eventTermInfo,
        Node.update_clock, handleEvent, candidateHandleEvent, hterm, hgrant,
        ReplyTo.term, lt_self_iff_false, stepResultActions, hq, ge_iff_le,
        heartbeatRecipientsIn, setTimeoutsIn] at hspec ⊢
      exact ⟨hspec.1, hspec.2⟩
  · refine ⟨?_, fun hcontra => absurd hcontra hq, harith⟩
    simp [Node.next, ifRpcMessageHasHigherTermBecomeFollower, eventTermInfo,
      Node.update_clock, handleEvent, candidateHandleEvent, hterm, hgrant,
      ReplyTo.term, lt_self_iff_false, stepResultNode, hq, Node.isLeader, ge_iff_le]

/-- Witness for C5's amended theorem at the concrete four-server fixture. -/
theorem C5_amended_witness :
    c5Vote.term = c5Storage.current_term ∧ c5Vote.vote_granted = true ∧
    ((stepResultNode c5Step).map Node.isLeader = some true ∧
      (stepResultActions c5Step).map heartbeatRecipientsIn = some [2, 3, 4] ∧
      (stepResultActions c5Step).map setTimeoutsIn = some [100]) := by
  have h := C5_amended_leader_exactly_at_code_quorum Unit testConfig 50 c5Candidate c5Vote
    { storage := c5Storage, rng := [], nextUuid := 40 } rfl rfl
  refine ⟨rfl, rfl, ?_, ?_, ?_⟩
  · have h1 := h.1
    simp only [c5Step]
    rw [h1]
    rfl
  · have h2 := (h.2.1 (by decide)).1
    simp only [c5Step]
    rw [h2]
    rfl
  · have h3 := (h.2.1 (by decide)).2
    simp only [c5Step]
    rw [h3]
    rfl

/-- Claim C6.  For every node in any role and every incoming RPC whose
term is strictly greater than the stored current term
(`(eventTermInfo w.storage event).1 = true`), the universal
pre-processing makes the node a Follower in the new term: the storage
holds the message's term both in memory and on disk (synced), the
term-scoped vote reads as `None`, `leader_id` is `None`, the election
timer is restarted at `now` with a fresh random draw `d`, a
`SetNextTimeout d` action is emitted, and `Node::next` then handles the
same event in the Follower role, appending that `SetNextTimeout` after
the handler's actions. -/
theorem C6_higher_term_rpc_becomes_follower_first (C : Type)
    (config : RaftConfig) (now : Instant) (n : Node) (event : Event C) (w : World)
    (hhi : (eventTermInfo w.storage event).1 = true)
    (hvote : ∀ tv ∈ w.storage.election.voted_for, tv.1 ≤ w.storage.current_term)
    (hsync : w.storage.syncPlan = []) :
    w.storage.current_term < (eventTermInfo w.storage event).2 ∧
    (Storage.voted_for_in_current_term
      { election := { current_term := (eventTermInfo w.storage event).2
                      voted_for := w.storage.election.voted_for }
        disk := { current_term := (eventTermInfo w.storage event).2
                  voted_for := w.storage.election.voted_for }
        syncPlan := [] } = none) ∧
    ifRpcMessageHasHigherTermBecomeFollower config now (n.update_clock now) event w =
      ({ storage :=
          { election := { current_term := (eventTermInfo w.storage event).2
                          voted_for := w.storage.election.voted_for }
            disk := { current_term := (eventTermInfo w.storage event).2
                      voted_for := w.storage.election.voted_for }
            syncPlan := [] }
         rng := (genRange config.min_election_timeout_ms config.max_election_timeout_ms w.rng).2
         nextUuid := w.nextUuid },
        .ok (.Follower
          { demoteToFollower now (n.update_clock now) with
            inner :=
              { last_election_timer_started := now
                election_timeout :=
                  (genRange config.min_election_timeout_ms config.max_election_timeout_ms w.rng).1
                leader_id := none } },
          [.SetNextTimeout
            (genRange config.min_election_timeout_ms config.max_election_timeout_ms w.rng).1])) ∧
    Node.next config now n event w =
      (match followerHandleEvent config now
          { demoteToFollower now (n.update_clock now) with
            inner :=
              { last_election_timer_started := now
                election_timeout :=
                  (genRange config.min_election_timeout_ms config.max_election_timeout_ms w.rng).1
                leader_id := none } }
          event
          { storage :=
              { election := { current_term := (eventTermInfo w.storage event).2
                              voted_for := w.storage.election.voted_for }
                disk := { current_term := (eventTermInfo w.storage event).2
                          voted_for := w.storage.election.voted_for }
                syncPlan := [] }
            rng := (genRange config.min_election_timeout_ms config.max_election_timeout_ms w.rng).2
            nextUuid := w.nextUuid } with
       | (w2, .error e) => (w2, .error e)
       | (w2, .ok (n3, acts)) =>
         (w2, .ok (n3, acts ++
           [.SetNextTimeout
             (genRange config.min_election_timeout_ms config.max_election_timeout_ms w.rng).1]))) := by
  have hlt : w.storage.current_term < (eventTermInfo w.storage event).2 := by
    cases event with
    | Tick t => simp [eventTermInfo] at hhi
    | LogEntryAppliedByApplication i => simp [eventTermInfo] at hhi
    | IncomingRpc msg =>
      cases msg with
      | Request r => simpa [eventTermInfo] using hhi
      | Reply r => simpa [eventTermInfo] using hhi
  have hnone : Storage.voted_for_in_current_term
      { election := { current_term := (eventTermInfo w.storage event).2
                      voted_for := w.storage.election.voted_for }
        disk := { current_term := (eventTermInfo w.storage event).2
                  voted_for := w.storage.election.voted_for }
        syncPlan := [] } = none := by
    unfold Storage.voted_for_in_current_term
    cases hv : w.storage.election.voted_for with
    | none => simp [hv]
    | some tv =>
      have htv := hvote tv (by rw [hv]; rfl)
      have hne : ¬ tv.1 = (eventTermInfo w.storage event).2 :=
        Nat.ne_of_lt (lt_of_le_of_lt htv hlt)
      simp [hv, hne]
  have hpre : ifRpcMessageHasHigherTermBecomeFollower config now (n.update_clock now) event w =
      ({ storage :=
          { election := { current_term := (eventTermInfo w.storage event).2
                          voted_for := w.storage.election.voted_for }
            disk := { current_term := (eventTermInfo w.storage event).2
                      voted_for := w.storage.election.voted_for }
            syncPlan := [] }
         rng := (genRange config.min_election_timeout_ms config.max_election_timeout_ms w.rng).2
         nextUuid := w.nextUuid },
        .ok (.Follower
          { demoteToFollower now (n.update_clock now) with
            inner :=
              { last_election_timer_started := now
                election_timeout :=
                  (genRange config.min_election_timeout_ms config.max_election_timeout_ms w.rng).1
                leader_id := none } },
          [.SetNextTimeout
            (genRange config.min_election_timeout_ms config.max_election_timeout_ms w.rng).1])) := by
    simp only [ifRpcMessageHasHigherTermBecomeFollower, hhi]
    simp [Storage.sync, Storage.update_term, hsync, resetElectionTimerF]
  refine ⟨hlt, hnone, hpre, ?_⟩
  simp only [Node.next]
  rw [hpre]
  rfl

/-- Witness for C6 at a concrete input: a Leader of term 1 receives an
`AppendEntriesAck` reply carrying term 3. -/
theorem C6_witness :
    (eventTermInfo
        { election := { current_term := 1, voted_for := some (1, 4) }
          disk := { current_term := 1, voted_for := some (1, 4) }
          syncPlan := [] }
        (Event.IncomingRpc (.Reply (.AppendEntries
          { request_id := 12, «from» := 5, «to» := 4, term := 3, success := false })) :
          Event Unit)).1 = true ∧
    stepResultNode (Node.next testConfig 77
      (.Leader
        { server_id := 4, start_time := 0, current_time := 0, other_servers := {5, 6}
          commit_index := 0, last_applied := 0
          inner := { last_heartbeat_sent := 0, next_index := [], match_index := [] } })
      (Event.IncomingRpc (.Reply (.AppendEntries
        { request_id := 12, «from» := 5, «to» := 4, term := 3, success := false })) : Event Unit)
      { storage :=
          { election := { current_term := 1, voted_for := some (1, 4) }
            disk := { current_term := 1, voted_for := some (1, 4) }
            syncPlan := [] }
        rng := [7], nextUuid := 0 }) =
      some (.Follower
        { server_id := 4, start_time := 0, current_time := 77, other_servers := {5, 6}
          commit_index := 0, last_applied := 0
          inner := { last_election_timer_started := 77, election_timeout := 157
                     leader_id := none } }) := by
  constructor
  · rfl
  · have h := C6_higher_term_rpc_becomes_follower_first Unit testConfig 77
      (.Leader
        { server_id := 4, start_time := 0, current_time := 0, other_servers := {5, 6}
          commit_index := 0, last_applied := 0
          inner := { last_heartbeat_sent := 0, next_index := [], match_index := [] } })
      (Event.IncomingRpc (.Reply (.AppendEntries
        { request_id := 12, «from» := 5, «to» := 4, term := 3, success := false })))
      { storage :=
          { election := { current_term := 1, voted_for := some (1, 4) }
            disk := { current_term := 1, voted_for := some (1, 4) }
            syncPlan := [] }
        rng := [7], nextUuid := 0 }
      rfl (by decide) rfl
    rw [h.2.2.2]
    rfl

/-- The grant condition of the embedded `vote_in_election`, in the
propositional form `simp` normalizes it to: it always holds, whatever the
vote history. -/
theorem vote_grant_condition_prop (s : Storage) :
    s.voted_for_in_current_term = none ∨
      (Option.map (fun _ => true) s.voted_for_in_current_term).getD false = true := by
  cases hv : s.voted_for_in_current_term <;> simp [hv]

/-- Claim C7.  A vote becomes durable before the granting reply exists:
with every sync succeeding, the result that carries the granting reply
already has `(current_term, req.from)` on disk; with the next sync
failing, `vote_in_election` returns the storage error, produces no
action, and leaves the disk exactly as it was; and a whole event-loop
iteration that delivers such a request to the Follower ends the node's
thread (`.stop`), with no message forwarded to the transport. -/
theorem C7_vote_sync_before_reply_and_fatal_error (C : Type)
    (config : RaftConfig) (now : Instant) (f : NodeState FollowerS) (req : RequestVote)
    (st : Storage) (rng : Rng) (u : Uuid)
    (hterm : st.current_term ≤ req.term)
    (htick : ¬ now > f.inner.last_election_timer_started + f.inner.election_timeout) :
    ((@voteInElection C f { st with syncPlan := [] } req).2.1.disk.voted_for =
        some (st.current_term, req.«from») ∧
      (@voteInElection C f { st with syncPlan := [] } req).2.2 =
        .ok [.OutgoingRpc (.Reply (.RequestVote
          { request_id := req.request_id, «from» := f.server_id, «to» := req.«from»
            term := st.current_term, vote_granted := true }))]) ∧
    ((@voteInElection C f { st with syncPlan := [false] } req).2.2 =
        .error (.storage .IoError) ∧
      (@voteInElection C f { st with syncPlan := [false] } req).2.1.disk = st.disk) ∧
    @loopIteration C config now (.Follower f)
        { storage := { st with syncPlan := [false] }, rng := rng, nextUuid := u }
        (.message (.Request (.RequestVote req))) = .stop := by
  have hgrant : ∀ plan : List Bool,
      (decide (req.term ≥ Storage.current_term { st with syncPlan := plan }) &&
        (!(Storage.voted_for_in_current_term { st with syncPlan := plan }).isSome ||
          ((Storage.voted_for_in_current_term { st with syncPlan := plan }).map
            fun _ => true).getD false)) = true := by
    intro plan
    exact vote_granted_whenever_term_ok { st with syncPlan := plan } req hterm
  refine ⟨⟨?_, ?_⟩, ⟨?_, ?_⟩, ?_⟩
  · simp only [voteInElection, hgrant []]
    simp [Storage.sync, Storage.record_vote, Storage.current_term]
  · simp only [voteInElection, hgrant []]
    simp [Storage.sync, Storage.record_vote, Storage.current_term]
  · simp only [voteInElection, hgrant [false]]
    simp [Storage.sync, Storage.record_vote]
  · simp only [voteInElection, hgrant [false]]
    simp [Storage.sync, Storage.record_vote]
  · unfold loopIteration
    rw [followerTickNoFire C config now now f _ htick]
    rcases eq_or_lt_of_le hterm with heq | hlt
    · have heq' : st.election.current_term = req.term := heq
      simp [Node.next, ifRpcMessageHasHigherTermBecomeFollower, eventTermInfo,
        Node.update_clock, handleEvent, followerHandleEvent, Storage.current_term, heq',
        Request.term, lt_self_iff_false, voteInElection, hgrant [false], Storage.sync,
        Storage.record_vote, vote_grant_condition_prop]
    · have hlt' : st.election.current_term < req.term := hlt
      simp [Node.next, ifRpcMessageHasHigherTermBecomeFollower, eventTermInfo,
        Node.update_clock, Storage.current_term, hlt', Request.term, Storage.sync,
        Storage.update_term]

/-- Witness for C7 at a concrete input: Follower 1 of `{1,2}` in term 2
with no vote yet, request from server 2 in term 2, election timer not yet
expired at `now = 10`. -/
theorem C7_witness :
    (2 : Nat) ≤ 2 ∧ ¬ (10 : Nat) > 0 + 150 ∧
    loopIteration testConfig 10
      (.Follower
        { server_id := 1, start_time := 0, current_time := 0, other_servers := {2}
          commit_index := 0, last_applied := 0
          inner := { last_election_timer_started := 0, election_timeout := 150
                     leader_id := none } })
      { storage :=
          { election := { current_term := 2, voted_for := none }
            disk := { current_term := 2, voted_for := none }
            syncPlan := [false] }
        rng := [], nextUuid := 0 }
      (.message (.Request (.RequestVote
        { request_id := 8, «from» := 2, «to» := 1, term := 2
          last_log_index := 0, last_log_term := 0 }))) = (.stop : LoopOutcome Unit) := by
  refine ⟨by decide, by decide, ?_⟩
  exact (C7_vote_sync_before_reply_and_fatal_error Unit testConfig 10
    { server_id := 1, start_time := 0, current_time := 0, other_servers := {2}
      commit_index := 0, last_applied := 0
      inner := { last_election_timer_started := 0, election_timeout := 150
                 leader_id := none } }
    { request_id := 8, «from» := 2, «to» := 1, term := 2
      last_log_index := 0, last_log_term := 0 }
    { election := { current_term := 2, voted_for := none }
      disk := { current_term := 2, voted_for := none }
      syncPlan := [true] }
    [] 0 (by decide) (by decide)).2.2

/-- The `sync` operation never changes the buffered election record. -/
theorem sync_election (s : Storage) : (Storage.sync s).1.election = s.election := by
  unfold Storage.sync
  rcases s with ⟨e, d, plan⟩
  cases plan with
  | nil => rfl
  | cons b rest => cases b <;> simp

/-- The `start_new_election` call leaves the stored term exactly one above the old
one, whether or not the sync succeeds. -/
theorem startNewElection_term (C : Type) (config : RaftConfig) (now : Instant)
    (ns : NodeState CandidateS) (w : World) :
    (@startNewElection C config now ns w).2.1.storage.current_term =
      w.storage.current_term + 1 := by
  simp only [startNewElection]
  rcases hs : ((w.storage.update_term w.storage.current_term.increment).record_vote
    ns.server_id).sync with ⟨st', r⟩
  have hel := sync_election
    ((w.storage.update_term w.storage.current_term.increment).record_vote ns.server_id)
  rw [hs] at hel
  replace hel : st'.election =
      ((w.storage.update_term w.storage.current_term.increment).record_vote
        ns.server_id).election := hel
  cases r <;>
    simp [hs, Storage.current_term, hel, Storage.record_vote, Storage.update_term,
      TermIndex.increment]

/-- The `vote_in_election` call never changes the stored term. -/
theorem voteInElection_term (C : Type) (ns : NodeState FollowerS) (st : Storage)
    (req : RequestVote) :
    (@voteInElection C ns st req).2.1.current_term = st.current_term := by
  simp only [voteInElection]
  split
  · rcases hs : (st.record_vote req.«from»).sync with ⟨st', r⟩
    have hel := sync_election (st.record_vote req.«from»)
    rw [hs] at hel
    replace hel : st'.election = (st.record_vote req.«from»).election := hel
    cases r <;> simp [hs, Storage.current_term, hel, Storage.record_vote]
  · rfl

/-- The Leader handler never touches storage. -/
theorem leaderHandleEvent_storage (C : Type) (config : RaftConfig)
    (ns : NodeState LeaderS) (event : Event C) (w : World) :
    (leaderHandleEvent config ns event w).1.storage = w.storage := by
  cases event with
  | Tick tnow =>
    simp only [leaderHandleEvent]
    split
    · simp [sendLeaderHeartbeatToCluster]
    · rfl
  | LogEntryAppliedByApplication i => rfl
  | IncomingRpc msg =>
    cases msg with
    | Request r =>
      cases r with
      | RequestVote req => rfl
      | AppendEntries req =>
        simp only [leaderHandleEvent]
        split
        · rfl
        · split <;> rfl
    | Reply rp => rfl

/-- The Candidate handler never lowers the stored term. -/
theorem candidateHandleEvent_term_mono (C : Type) (config : RaftConfig) (now : Instant)
    (ns : NodeState CandidateS) (event : Event C) (w : World) :
    w.storage.current_term ≤ (candidateHandleEvent config now ns event w).1.storage.current_term := by
  cases event with
  | Tick tnow =>
    simp only [candidateHandleEvent]
    split
    · rcases hr : @startNewElection C config now ns w with ⟨c', w', res⟩
      have hterm := startNewElection_term C config now ns w
      rw [hr] at hterm
      replace hterm : w'.storage.current_term = w.storage.current_term + 1 := hterm
      cases res <;> simp [hterm]
    · simp
  | LogEntryAppliedByApplication i => simp [candidateHandleEvent]
  | IncomingRpc msg =>
    cases msg with
    | Request r =>
      cases r with
      | RequestVote req => simp [candidateHandleEvent]
      | AppendEntries req =>
        simp only [candidateHandleEvent]
        split
        · simp
        · split
          · simp
          · simp
    | Reply rp =>
      cases rp with
      | RequestVote v =>
        simp only [candidateHandleEvent]
        split
        · split <;> simp
        · simp
      | AppendEntries a => simp [candidateHandleEvent]

/-- The Follower handler never lowers the stored term. -/
theorem followerHandleEvent_term_mono (C : Type) (config : RaftConfig) (now : Instant)
    (ns : NodeState FollowerS) (event : Event C) (w : World) :
    w.storage.current_term ≤ (followerHandleEvent config now ns event w).1.storage.current_term := by
  cases event with
  | Tick tnow =>
    simp only [followerHandleEvent]
    split
    · rcases hr : @startNewElection C config now (ns.transition (followerToCandidate now)) w
        with ⟨c', w', res⟩
      have hterm := startNewElection_term C config now (ns.transition (followerToCandidate now)) w
      rw [hr] at hterm
      replace hterm : w'.storage.current_term = w.storage.current_term + 1 := hterm
      cases res <;> simp [hterm]
    · simp
  | LogEntryAppliedByApplication i => simp [followerHandleEvent]
  | IncomingRpc msg =>
    cases msg with
    | Request r =>
      cases r with
      | RequestVote req =>
        simp only [followerHandleEvent]
        split
        · simp
        · rcases hr : @voteInElection C
            { ns with inner := { ns.inner with leader_id := none } } w.storage req
            with ⟨ns', st', res⟩
          have hterm := voteInElection_term C
            { ns with inner := { ns.inner with leader_id := none } } w.storage req
          rw [hr] at hterm
          replace hterm : st'.current_term = w.storage.current_term := hterm
          cases res <;> simp [hterm]
      | AppendEntries req =>
        simp only [followerHandleEvent]
        split <;> simp
    | Reply rp => simp [followerHandleEvent]

/-- The universal pre-processing never lowers the stored term. -/
theorem ifHigherTerm_term_mono (C : Type) (config : RaftConfig) (now : Instant)
    (n : Node) (event : Event C) (w : World) :
    w.storage.current_term ≤
      (ifRpcMessageHasHigherTermBecomeFollower config now n event w).1.storage.current_term := by
  simp only [ifRpcMessageHasHigherTermBecomeFollower]
  by_cases hhi : (eventTermInfo w.storage event).1 = true
  · have hlt : w.storage.current_term ≤ (eventTermInfo w.storage event).2 := by
      cases event with
      | Tick t => simp [eventTermInfo] at hhi
      | LogEntryAppliedByApplication i => simp [eventTermInfo] at hhi
      | IncomingRpc msg =>
        cases msg with
        | Request r =>
          simp only [eventTermInfo, decide_eq_true_eq] at hhi
          exact le_of_lt hhi
        | Reply r =>
          simp only [eventTermInfo, decide_eq_true_eq] at hhi
          exact le_of_lt hhi
    rw [if_pos hhi]
    rcases hs : (w.storage.update_term (eventTermInfo w.storage event).2).sync with ⟨st', r⟩
    have hel := sync_election (w.storage.update_term (eventTermInfo w.storage event).2)
    rw [hs] at hel
    replace hel : st'.election =
        (w.storage.update_term (eventTermInfo w.storage event).2).election := hel
    replace hlt : w.storage.election.current_term ≤ (eventTermInfo w.storage event).2 := hlt
    cases r <;> simp [hs, Storage.current_term, hel, Storage.update_term] <;>
      exact hlt
  · rw [if_neg hhi]

/-- The role dispatch never lowers the stored term. -/
theorem handleEvent_term_mono (C : Type) (config : RaftConfig) (now : Instant)
    (n : Node) (event : Event C) (w : World) :
    w.storage.current_term ≤ (handleEvent config now n event w).1.storage.current_term := by
  cases n with
  | Leader s =>
    simp only [handleEvent]
    have h := leaderHandleEvent_storage C config s event w
    rw [h]
  | Follower s =>
    simp only [handleEvent]
    exact followerHandleEvent_term_mono C config now s event w
  | Candidate s =>
    simp only [handleEvent]
    exact candidateHandleEvent_term_mono C config now s event w

/-- Claim C8.  Term monotonicity: one step of `Node::next`, for every
node, role, event and storage state, leaves the stored `current_term`
greater than or equal to what it was before the step — also when the step
aborts with a storage error or panic. -/
theorem C8_current_term_never_decreases (C : Type) (config : RaftConfig) (now : Instant)
    (n : Node) (event : Event C) (w : World) :
    w.storage.current_term ≤ (Node.next config now n event w).1.storage.current_term := by
  simp only [Node.next]
  rcases hp : ifRpcMessageHasHigherTermBecomeFollower config now (n.update_clock now) event w
    with ⟨w1, r1⟩
  have h1 := ifHigherTerm_term_mono C config now (n.update_clock now) event w
  rw [hp] at h1
  cases r1 with
  | error e => simpa using h1
  | ok p =>
    rcases p with ⟨n2, tt⟩
    rcases hh : handleEvent config now n2 event w1 with ⟨w2, r2⟩
    have h2 := handleEvent_term_mono C config now n2 event w1
    rw [hh] at h2
    cases r2 <;> simp [hh] <;> exact le_trans h1 h2

/-- Claim C9.  The election deadline comparison is strict: a Tick at
exactly `last_election_timer_started + election_timeout` does nothing for
a Follower or a Candidate (same node but for the refreshed clock, no
action, nothing stored), while a Tick one millisecond later starts (or
restarts) an election: the node ends the step as a Candidate and the
stored term has been incremented. -/
theorem C9_election_timeout_fires_strictly_after_deadline (C : Type)
    (config : RaftConfig) (now : Instant) (f : NodeState FollowerS)
    (c : NodeState CandidateS) (w : World)
    (hsync : w.storage.syncPlan = []) :
    (Node.next config now (.Follower f)
        (Event.Tick (f.inner.last_election_timer_started + f.inner.election_timeout) : Event C)
        w =
      (w, .ok (.Follower { f with current_time := now }, []))) ∧
    ((stepResultNode (Node.next config now (.Follower f)
        (Event.Tick (f.inner.last_election_timer_started + f.inner.election_timeout + 1) :
          Event C) w)).map Node.isCandidate = some true ∧
      (Node.next config now (.Follower f)
        (Event.Tick (f.inner.last_election_timer_started + f.inner.election_timeout + 1) :
          Event C) w).1.storage.current_term = w.storage.current_term + 1) ∧
    (Node.next config now (.Candidate c)
        (Event.Tick (c.inner.last_election_timer_started + c.inner.election_timeout) : Event C)
        w =
      (w, .ok (.Candidate { c with current_time := now }, []))) ∧
    ((stepResultNode (Node.next config now (.Candidate c)
        (Event.Tick (c.inner.last_election_timer_started + c.inner.election_timeout + 1) :
          Event C) w)).map Node.isCandidate = some true ∧
      (Node.next config now (.Candidate c)
        (Event.Tick (c.inner.last_election_timer_started + c.inner.election_timeout + 1) :
          Event C) w).1.storage.current_term = w.storage.current_term + 1) := by
  refine ⟨?_, ⟨?_, ?_⟩, ?_, ⟨?_, ?_⟩⟩
  · exact followerTickNoFire C config now _ f w (by simp)
  · simp [Node.next, ifRpcMessageHasHigherTermBecomeFollower, eventTermInfo,
      Node.update_clock, handleEvent, followerHandleEvent, NodeState.transition,
      followerToCandidate, startNewElection, Storage.update_term, Storage.record_vote,
      Storage.current_term, TermIndex.increment, Storage.sync, hsync, stepResultNode,
      Node.isCandidate, lt_add_one]
  · simp [Node.next, ifRpcMessageHasHigherTermBecomeFollower, eventTermInfo,
      Node.update_clock, handleEvent, followerHandleEvent, NodeState.transition,
      followerToCandidate, startNewElection, Storage.update_term, Storage.record_vote,
      Storage.current_term, TermIndex.increment, Storage.sync, hsync, lt_add_one]
  · simp [Node.next, ifRpcMessageHasHigherTermBecomeFollower, eventTermInfo,
      Node.update_clock, handleEvent, candidateHandleEvent, lt_self_iff_false]
  · simp [Node.next, ifRpcMessageHasHigherTermBecomeFollower, eventTermInfo,
      Node.update_clock, handleEvent, candidateHandleEvent, startNewElection,
      Storage.update_term, Storage.record_vote, Storage.current_term, TermIndex.increment,
      Storage.sync, hsync, stepResultNode, Node.isCandidate, lt_add_one,
      resetElectionTimerC]
  · simp [Node.next, ifRpcMessageHasHigherTermBecomeFollower, eventTermInfo,
      Node.update_clock, handleEvent, candidateHandleEvent, startNewElection,
      Storage.update_term, Storage.record_vote, Storage.current_term, TermIndex.increment,
      Storage.sync, hsync, lt_add_one, resetElectionTimerC]

/-- Witness for C9 at concrete fixtures (`c1Follower` with deadline
0 + 150, `c3Candidate` with deadline 100 + 180). -/
theorem C9_witness :
    c1Storage.syncPlan = [] ∧
    (Node.next testConfig 42 (.Follower c1Follower)
        (Event.Tick (c1Follower.inner.last_election_timer_started +
          c1Follower.inner.election_timeout) : Event Unit)
        { storage := c1Storage, rng := [5], nextUuid := 0 } =
      ({ storage := c1Storage, rng := [5], nextUuid := 0 },
        .ok (.Follower { c1Follower with current_time := 42 }, []))) ∧
    ((stepResultNode (Node.next testConfig 42 (.Follower c1Follower)
        (Event.Tick (c1Follower.inner.last_election_timer_started +
          c1Follower.inner.election_timeout + 1) : Event Unit)
        { storage := c1Storage, rng := [5], nextUuid := 0 })).map Node.isCandidate =
          some true ∧
      (Node.next testConfig 42 (.Follower c1Follower)
        (Event.Tick (c1Follower.inner.last_election_timer_started +
          c1Follower.inner.election_timeout + 1) : Event Unit)
        { storage := c1Storage, rng := [5], nextUuid := 0 }).1.storage.current_term = 2) := by
  have h := C9_election_timeout_fires_strictly_after_deadline Unit testConfig 42 c1Follower
    c3Candidate { storage := c1Storage, rng := [5], nextUuid := 0 } rfl
  exact ⟨rfl, h.1, h.2.1⟩

/-- Claim C10, amended.  For every Follower and every `RequestVote`
request whose term is *equal* to its current term, the step sets
`leader_id := None` whether or not the vote is granted, never resets the
election timer fields and emits no `SetNextTimeout`; every node field
other than `leader_id` and the clock reading is unchanged, the RNG is not
drawn from, and the storage changes only in the persisted vote (for a
strictly greater term the universal pre-processing resets the timer and
emits `SetNextTimeout` instead). -/
theorem C10_amended_equal_term_request_vote_frame (C : Type)
    (config : RaftConfig) (now : Instant) (f : NodeState FollowerS) (req : RequestVote)
    (w : World)
    (hterm : req.term = w.storage.current_term)
    (hsync : w.storage.syncPlan = []) :
    Node.next config now (.Follower f)
        (Event.IncomingRpc (.Request (.RequestVote req)) : Event C) w =
      ({ storage :=
          { election := { current_term := w.storage.current_term
                          voted_for := some (w.storage.current_term, req.«from») }
            disk := { current_term := w.storage.current_term
                      voted_for := some (w.storage.current_term, req.«from») }
            syncPlan := [] }
         rng := w.rng
         nextUuid := w.nextUuid },
        .ok (.Follower
          { f with current_time := now, inner := { f.inner with leader_id := none } },
          [.OutgoingRpc (.Reply (.RequestVote
            { request_id := req.request_id, «from» := f.server_id, «to» := req.«from»
              term := w.storage.current_term, vote_granted := true }))])) := by
  simp [Node.next, ifRpcMessageHasHigherTermBecomeFollower, eventTermInfo,
    Node.update_clock, handleEvent, followerHandleEvent, Request.term, hterm,
    lt_self_iff_false, voteInElection, vote_grant_condition_prop, Storage.sync,
    Storage.record_vote, Storage.current_term, hsync]

/-- Witness for C10's amended theorem at the `c1` fixture (request term 1
equal to the stored term 1). -/
theorem C10_amended_witness :
    c1Request.term = c1Storage.current_term ∧ c1Storage.syncPlan = [] ∧
    Node.next testConfig 5 (.Follower c1Follower)
        (Event.IncomingRpc (.Request (.RequestVote c1Request)) : Event Unit)
        { storage := c1Storage, rng := [], nextUuid := 0 } =
      ({ storage :=
          { election := { current_term := 1, voted_for := some (1, 3) }
            disk := { current_term := 1, voted_for := some (1, 3) }
            syncPlan := [] }
         rng := [], nextUuid := 0 },
        .ok (.Follower
          { c1Follower with current_time := 5
                            inner := { c1Follower.inner with leader_id := none } },
          [.OutgoingRpc (.Reply (.RequestVote
            { request_id := 7, «from» := 1, «to» := 3, term := 1, vote_granted := true }))])) := by
  refine ⟨rfl, rfl, ?_⟩
  exact C10_amended_equal_term_request_vote_frame Unit testConfig 5 c1Follower c1Request
    { storage := c1Storage, rng := [], nextUuid := 0 } rfl rfl

end RaftSpec
